import Mathlib

/-!
Verification of `scripts/generate-icons.py`: a shallow embedding of the
icon-generation script and proofs of its specified properties.

The script reads one source image and produces four resized PNG variants
according to a static size table, reporting per-file success and an exit
status.  Images are modelled by their dimensions and pixel mode; the
fallible filesystem operations (decoding the source, saving an output)
are modelled by an explicit environment recording their outcomes.

Pillow's `Image.thumbnail` size computation is embedded with exact
rational arithmetic in place of Python floats (the comparisons involved
are idealized as exact); its floor/ceil tie-breaking rules are
reproduced from Pillow's `round_aspect` helper.  On an exact half-pixel
tie the float comparison can fall either way, but every property proved
below holds for the floor choice and the ceiling choice alike, so the
theorems are insensitive to this idealization.
-/

namespace GenerateIcons

/-- A decoded bitmap, abstracted to its dimensions and pixel mode
(`"RGBA"`, `"RGB"`, `"P"`, ...). -/
structure Img where
  width : Nat
  height : Nat
  mode : String
deriving DecidableEq, Repr

/-- The static size table `ICON_SIZES` (a Python dict, which preserves
insertion order): output filename to target pixel size. -/
def ICON_SIZES : List (String × Nat) :=
  [("icon.png", 1024),
   ("adaptive-icon.png", 1024),
   ("splash-icon.png", 1242),
   ("favicon.png", 48)]

/-- Pillow `thumbnail` helper `round_aspect(y * aspect, key := fun n => |aspect - n / y|)`
with `aspect = w / h`: the value is `num / den` (here `num = size * w`,
`den = h`); choose between its floor and its ceiling the one whose ratio
to `y` is closest to the exact aspect (ties go to the floor, and the
floor is closer exactly when twice the remainder is at most `den`), then
clamp below by 1. -/
def roundAspectFit (num den : Nat) : Nat :=
  let fl := num / den
  let r := num % den
  max (if 2 * r ≤ den then fl else fl + 1) 1

/-- Pillow `thumbnail` helper for the other branch,
`round_aspect(x / aspect, key := fun n => if n = 0 then 0 else |aspect - x / n|)`:
the key's denominator depends on the candidate `n`, giving an asymmetric
tie rule (the floor `fl` wins iff `r * (fl + 1) ≤ (den - r) * fl`), and
the candidate `0` has key `0`; then clamp below by 1. -/
def roundAspectFree (num den : Nat) : Nat :=
  let fl := num / den
  let r := num % den
  max (if fl = 0 then 0
       else if r * (fl + 1) ≤ (den - r) * fl then fl else fl + 1) 1

/-- Dimensions produced by `img.thumbnail((size, size), Image.LANCZOS)` on an
image of dimensions `w × h` (Pillow: no resize at all when the image already
fits inside the bounding box; otherwise scale preserving aspect ratio). -/
def thumbnail_fit (size w h : Nat) : Nat × Nat :=
  if size ≥ w ∧ size ≥ h then (w, h)
  else if h ≥ w then (roundAspectFit (size * w) h, size)
  else (size, roundAspectFree (size * h) w)

/-- The offset `paste_x = (size - img.width) // 2` (Python floor division
on integers). -/
def paste_x (size w : Nat) : Int := ((size : Int) - (w : Int)).fdiv 2

/-- The offset `paste_y = (size - img.height) // 2` (Python floor division
on integers). -/
def paste_y (size h : Nat) : Int := ((size : Int) - (h : Int)).fdiv 2

/-- Mode normalization `if img.mode != 'RGBA': img = img.convert('RGBA')`. -/
def convertRGBA (img : Img) : Img :=
  if img.mode ≠ "RGBA" then { img with mode := "RGBA" } else img

/-- The message `f"✗ Error creating {output_path}: {e}"`. -/
def errLine (output_path err : String) : String :=
  "✗ Error creating " ++ output_path ++ ": " ++ err

/-- The message `f"✓ Created {output_path} ({size}x{size})"`. -/
def okLine (output_path : String) (size : Nat) : String :=
  "✓ Created " ++ output_path ++ " (" ++ toString size ++ "x" ++ toString size ++ ")"

/-- Outcome of `Image.open(input_path)`: a decoded image, or an exception
(missing, corrupt or unsupported file) carrying its message. -/
inductive OpenResult where
  | ok (img : Img)
  | fail (err : String)
deriving DecidableEq, Repr

/-- Environment of one `resize_image` call: the outcome of decoding the
input, and the outcome of `img.save` (`none` = success, `some e` = the
exception raised while encoding or writing). -/
structure Env where
  openResult : OpenResult
  saveError : Option String
deriving DecidableEq, Repr

/-- Observable result of one `resize_image` call: the returned boolean,
the bitmap written to the output path on success, the placement of the
pasted thumbnail on the canvas in the aspect-preserving branch
(`paste_x`, `paste_y`, scaled width, scaled height), and the line printed. -/
structure RIResult where
  ret : Bool
  written : Option Img
  content : Option (Int × Int × Nat × Nat)
  log : String
deriving DecidableEq, Repr

/-- Embedding of `resize_image(input_path, output_path, size, maintain_aspect)`:
decode, convert to RGBA, either thumbnail-and-center on a transparent square
canvas of `size × size` or stretch to exactly `size × size`, save as PNG;
every exception is caught and turned into a `False` return with an error
line naming the output path, and success returns `True`. -/
def resize_image (env : Env) (output_path : String) (size : Nat)
    (maintain_aspect : Bool) : RIResult :=
  match env.openResult with
  | .fail e => ⟨false, none, none, errLine output_path e⟩
  | .ok img0 =>
    let img1 := convertRGBA img0
    let result : Img × Option (Int × Int × Nat × Nat) :=
      if maintain_aspect then
        let d := thumbnail_fit size img1.width img1.height
        (⟨size, size, "RGBA"⟩, some (paste_x size d.1, paste_y size d.2, d.1, d.2))
      else
        (⟨size, size, "RGBA"⟩, none)
    match env.saveError with
    | some e => ⟨false, none, result.2, errLine output_path e⟩
    | none => ⟨true, some result.1, result.2, okLine output_path size⟩

/-- The flag `maintain_aspect = filename in ['icon.png', 'adaptive-icon.png']`. -/
def maintain_aspect_for (filename : String) : Bool :=
  ["icon.png", "adaptive-icon.png"].contains filename

/-- State of the world a run of `main` sees: whether the source image file
exists, the outcome of decoding it, and the outcome of saving to each
output filename. -/
structure World where
  sourceExists : Bool
  openResult : OpenResult
  saveError : String → Option String

/-- The environment `resize_image` runs in for a given output filename. -/
def envFor (w : World) (filename : String) : Env :=
  ⟨w.openResult, w.saveError filename⟩

/-- The boolean `resize_image` returns for a given table entry. -/
def retFor (w : World) (entry : String × Nat) : Bool :=
  (resize_image (envFor w entry.1) entry.1 entry.2 (maintain_aspect_for entry.1)).ret

/-- Observable result of `main()`: process exit status, the output
filenames successfully written (in order), the `resize_image` invocations
made (filename, size, maintain_aspect flag, in order), and the success
counter. -/
structure MainResult where
  exitCode : Nat
  written : List String
  calls : List (String × Nat × Bool)
  successCount : Nat
deriving DecidableEq, Repr

/-- One loop iteration of `main`: call `resize_image`, record the call,
the file written (if any) and the success count. -/
def mainStep (w : World) (acc : MainResult) (entry : String × Nat) : MainResult :=
  let ma := maintain_aspect_for entry.1
  let r := resize_image (envFor w entry.1) entry.1 entry.2 ma
  { exitCode := acc.exitCode
    written := acc.written ++ (if r.written.isSome then [entry.1] else [])
    calls := acc.calls ++ [(entry.1, entry.2, ma)]
    successCount := acc.successCount + (if r.ret then 1 else 0) }

/-- Embedding of `main()`: exit 1 at once if the source image is absent
(before any resize call or write); otherwise loop over `ICON_SIZES`, then
exit 0 iff every entry succeeded. -/
def main (w : World) : MainResult :=
  if w.sourceExists = false then
    ⟨1, [], [], 0⟩
  else
    let res := ICON_SIZES.foldl (mainStep w) ⟨0, [], [], 0⟩
    { res with exitCode := if res.successCount = ICON_SIZES.length then 0 else 1 }

/-! ### Helper lemmas -/

lemma div_le_bound (num den s : Nat) (hden : 0 < den) (hle : num ≤ den * s) :
    num / den ≤ s := by
  calc num / den ≤ (den * s) / den := Nat.div_le_div_right hle
    _ = s := Nat.mul_div_cancel_left s hden

lemma roundAspectFit_le (num den s : Nat) (hden : 0 < den) (hs : 1 ≤ s)
    (hle : num ≤ den * s) : roundAspectFit num den ≤ s := by
  unfold roundAspectFit
  dsimp only
  have hdm := Nat.div_add_mod num den
  have hmod := Nat.mod_lt num hden
  have hfls : num / den ≤ s := div_le_bound num den s hden hle
  split_ifs with h
  · omega
  · have hr0 : 0 < num % den := by omega
    have hlt : den * (num / den) < den * s := by omega
    have : num / den < s := Nat.lt_of_mul_lt_mul_left hlt
    omega

lemma roundAspectFit_close (num den : Nat) (hnum : 0 < num) (hden : 0 < den) :
    roundAspectFit num den * den < num + den ∧
    num < roundAspectFit num den * den + den := by
  unfold roundAspectFit
  dsimp only
  have hdm := Nat.div_add_mod num den
  have hmod := Nat.mod_lt num hden
  have hc1 : num / den * den = den * (num / den) := Nat.mul_comm _ _
  have hc2 : (num / den + 1) * den = den * (num / den) + den := by ring
  split_ifs with h
  · rcases Nat.eq_zero_or_pos (num / den) with h0 | h0
    · rw [h0] at hdm
      rw [h0]
      simp only [Nat.max_eq_right (Nat.zero_le 1), one_mul]
      omega
    · rw [Nat.max_eq_left h0]
      omega
  · have hr0 : 0 < num % den := by omega
    rw [Nat.max_eq_left (Nat.le_add_left 1 (num / den))]
    omega

lemma roundAspectFree_le (num den s : Nat) (hden : 0 < den) (hs : 1 ≤ s)
    (hle : num ≤ den * s) : roundAspectFree num den ≤ s := by
  unfold roundAspectFree
  dsimp only
  have hdm := Nat.div_add_mod num den
  have hmod := Nat.mod_lt num hden
  have hfls : num / den ≤ s := div_le_bound num den s hden hle
  split_ifs with h0 h
  · omega
  · omega
  · have hr0 : 0 < num % den := by
      rcases Nat.eq_zero_or_pos (num % den) with hz | hp
      · rw [hz] at h
        simp at h
      · exact hp
    have hlt : den * (num / den) < den * s := by omega
    have : num / den < s := Nat.lt_of_mul_lt_mul_left hlt
    omega

lemma roundAspectFree_close (num den : Nat) (hnum : 0 < num) (hden : 0 < den) :
    roundAspectFree num den * den < num + den ∧
    num < roundAspectFree num den * den + den := by
  unfold roundAspectFree
  dsimp only
  have hdm := Nat.div_add_mod num den
  have hmod := Nat.mod_lt num hden
  have hc1 : num / den * den = den * (num / den) := Nat.mul_comm _ _
  have hc2 : (num / den + 1) * den = den * (num / den) + den := by ring
  split_ifs with h0 h
  · rw [h0] at hdm
    simp only [Nat.max_eq_right (Nat.zero_le 1), one_mul]
    omega
  · rw [Nat.max_eq_left (Nat.pos_of_ne_zero h0)]
    omega
  · have hr0 : 0 < num % den := by
      rcases Nat.eq_zero_or_pos (num % den) with hz | hp
      · rw [hz] at h
        simp at h
      · exact hp
    rw [Nat.max_eq_left (Nat.le_add_left 1 (num / den))]
    omega

lemma thumbnail_fit_bounds (s w h : Nat) (hs : 0 < s) (hw : 0 < w) (hh : 0 < h) :
    (thumbnail_fit s w h).1 ≤ s ∧ (thumbnail_fit s w h).2 ≤ s ∧
    (thumbnail_fit s w h).1 ≤ w ∧ (thumbnail_fit s w h).2 ≤ h := by
  unfold thumbnail_fit
  split_ifs with h1 h2
  · exact ⟨h1.1, h1.2, le_refl w, le_refl h⟩
  · have hsh : s < h := by
      rcases not_and_or.mp h1 with hc | hc <;> omega
    refine ⟨?_, le_refl s, ?_, le_of_lt hsh⟩
    · exact roundAspectFit_le (s * w) h s hh hs
        ((Nat.mul_le_mul_left s h2).trans (Nat.le_of_eq (mul_comm s h)))
    · exact roundAspectFit_le (s * w) h w hh hw
        (Nat.mul_le_mul_right w (le_of_lt hsh))
  · have hwh : h < w := by omega
    have hsw : s < w := by
      rcases not_and_or.mp h1 with hc | hc <;> omega
    refine ⟨le_refl s, ?_, le_of_lt hsw, ?_⟩
    · exact roundAspectFree_le (s * h) w s hw hs
        ((Nat.mul_le_mul_left s (le_of_lt hwh)).trans (Nat.le_of_eq (mul_comm s w)))
    · exact roundAspectFree_le (s * h) w h hw hh
        (Nat.mul_le_mul_right h (le_of_lt hsw))

lemma paste_x_ediv (s d : Nat) : paste_x s d = ((s : Int) - d) / 2 :=
  Int.fdiv_eq_ediv _ (by norm_num)

lemma paste_y_ediv (s d : Nat) : paste_y s d = ((s : Int) - d) / 2 :=
  Int.fdiv_eq_ediv _ (by norm_num)

lemma resize_written_isSome (env : Env) (p : String) (s : Nat) (ma : Bool) :
    (resize_image env p s ma).written.isSome = (resize_image env p s ma).ret := by
  obtain ⟨o, se⟩ := env
  cases o <;> cases se <;> rfl

lemma foldl_mainStep (w : World) (l : List (String × Nat)) (acc : MainResult) :
    l.foldl (mainStep w) acc =
      { exitCode := acc.exitCode
        written := acc.written ++ (l.filter (retFor w)).map Prod.fst
        calls := acc.calls ++ l.map (fun e => (e.1, e.2, maintain_aspect_for e.1))
        successCount := acc.successCount + l.countP (retFor w) } := by
  induction l generalizing acc with
  | nil => simp
  | cons e t ih =>
    rw [List.foldl_cons, ih]
    have hwr : (resize_image (envFor w e.1) e.1 e.2 (maintain_aspect_for e.1)).written.isSome
        = retFor w e := resize_written_isSome _ _ _ _
    cases hret : retFor w e with
    | false =>
      rw [hret] at hwr
      have hret' : (resize_image (envFor w e.1) e.1 e.2 (maintain_aspect_for e.1)).ret
          = false := hret
      simp [mainStep, hwr, hret', List.filter_cons, List.countP_cons, hret]
    | true =>
      rw [hret] at hwr
      have hret' : (resize_image (envFor w e.1) e.1 e.2 (maintain_aspect_for e.1)).ret
          = true := hret
      simp [mainStep, hwr, hret', List.filter_cons, List.countP_cons, hret,
        Nat.add_comm, Nat.add_assoc, Nat.add_left_comm]

lemma main_run (w : World) (h : w.sourceExists = true) :
    main w =
      { exitCode := if ICON_SIZES.countP (retFor w) = ICON_SIZES.length then 0 else 1
        written := (ICON_SIZES.filter (retFor w)).map Prod.fst
        calls := ICON_SIZES.map (fun e => (e.1, e.2, maintain_aspect_for e.1))
        successCount := ICON_SIZES.countP (retFor w) } := by
  unfold main
  rw [h]
  simp only [Bool.true_eq_false, if_false]
  rw [foldl_mainStep]
  norm_num
  split_ifs <;> simp_all

lemma mem_written (w : World) (p : String) (hp : p ∈ (main w).written) :
    p ∈ ICON_SIZES.map Prod.fst := by
  cases hsrc : w.sourceExists with
  | false =>
    rw [main] at hp
    rw [hsrc] at hp
    simp at hp
  | true =>
    rw [main_run w hsrc] at hp
    obtain ⟨e, he, rfl⟩ := List.mem_map.mp hp
    exact List.mem_map.mpr ⟨e, (List.mem_filter.mp he).1, rfl⟩

/-! ### Claim theorems -/

/-- C1: for every SizeSpec in the table and every decodable source image,
the bitmap `resize_image` produces (in both the maintain-aspect and
stretch branches) is exactly `target × target` in RGBA format, regardless
of the source's dimensions, aspect ratio or mode. -/
theorem resize_image_square_rgba :
    ∀ e ∈ ICON_SIZES, ∀ (env : Env) (img : Img) (ma : Bool) (p : String),
      env.openResult = .ok img → env.saveError = none →
      (resize_image env p e.2 ma).written = some (Img.mk e.2 e.2 ("RGBA")) := by
  intro e _ env img ma p ho hs
  cases ma <;> simp [resize_image, ho, hs]

/-- Witness for C1: the 1024-pixel icon spec applied to a 123 × 77
palette-mode source yields a 1024 × 1024 RGBA bitmap. -/
theorem resize_image_square_rgba_witness :
    ("icon.png", 1024) ∈ ICON_SIZES ∧
    (resize_image ⟨.ok ⟨123, 77, "P"⟩, none⟩ ("out.png") 1024 true).written =
      some (Img.mk 1024 1024 ("RGBA")) :=
  ⟨by decide,
   resize_image_square_rgba ("icon.png", 1024) (by decide)
     ⟨.ok ⟨123, 77, "P"⟩, none⟩ ⟨123, 77, "P"⟩ true ("out.png") rfl rfl⟩

/-- C2: `resize_image` is a total function into a boolean result: a decode
failure or a save failure yields `false` together with a message naming
the output path and the error, and full success yields `true` with the
success message; no exception propagates. -/
theorem resize_image_total_boolean (env : Env) (p : String) (s : Nat) (ma : Bool) :
    ((resize_image env p s ma).ret = true ∨ (resize_image env p s ma).ret = false) ∧
    (∀ e, env.openResult = .fail e →
      (resize_image env p s ma).ret = false ∧
      (resize_image env p s ma).log = errLine p e) ∧
    (∀ img e, env.openResult = .ok img → env.saveError = some e →
      (resize_image env p s ma).ret = false ∧
      (resize_image env p s ma).log = errLine p e) ∧
    (∀ img, env.openResult = .ok img → env.saveError = none →
      (resize_image env p s ma).ret = true ∧
      (resize_image env p s ma).log = okLine p s) := by
  obtain ⟨o, se⟩ := env
  cases o <;> cases se <;> simp [resize_image]

/-- Witness for C2: a missing-file decode failure returns `false` with a
message naming the output path and the error. -/
theorem resize_image_total_boolean_witness :
    (Env.mk (.fail ("no such file")) none).openResult = .fail ("no such file") ∧
    (resize_image ⟨.fail ("no such file"), none⟩ ("out.png") 48 false).ret = false ∧
    (resize_image ⟨.fail ("no such file"), none⟩ ("out.png") 48 false).log =
      errLine ("out.png") ("no such file") :=
  ⟨rfl,
   (resize_image_total_boolean ⟨.fail ("no such file"), none⟩ ("out.png") 48
     false).2.1 ("no such file") rfl⟩

/-- C4: when the source image file does not exist, `main` exits with
status 1 before any processing: no `resize_image` call is made and no
output file is written. -/
theorem main_missing_source (w : World) (h : w.sourceExists = false) :
    (main w).exitCode = 1 ∧ (main w).written = [] ∧ (main w).calls = [] := by
  rw [main, h]
  simp

/-- Witness for C4: a world with no source file exits 1 with no calls and
no writes. -/
theorem main_missing_source_witness :
    (World.mk false (.fail ("absent")) (fun _ => none)).sourceExists = false ∧
    (main ⟨false, .fail ("absent"), fun _ => none⟩).exitCode = 1 ∧
    (main ⟨false, .fail ("absent"), fun _ => none⟩).written = [] ∧
    (main ⟨false, .fail ("absent"), fun _ => none⟩).calls = [] :=
  ⟨rfl, main_missing_source ⟨false, .fail ("absent"), fun _ => none⟩ rfl⟩

/-- C5: `main` iterates the table in its fixed order — icon.png (1024),
adaptive-icon.png (1024), splash-icon.png (1242), favicon.png (48) — and
passes `maintain_aspect = true` exactly for icon.png and
adaptive-icon.png. -/
theorem main_call_order (w : World) (h : w.sourceExists = true) :
    (main w).calls =
      [("icon.png", 1024, true), ("adaptive-icon.png", 1024, true),
       ("splash-icon.png", 1242, false), ("favicon.png", 48, false)] := by
  rw [main_run w h]
  rfl

/-- Witness for C5: the call list of a concrete successful run. -/
theorem main_call_order_witness :
    (World.mk true (.ok ⟨2000, 1000, "RGB"⟩) (fun _ => none)).sourceExists = true ∧
    (main ⟨true, .ok ⟨2000, 1000, "RGB"⟩, fun _ => none⟩).calls =
      [("icon.png", 1024, true), ("adaptive-icon.png", 1024, true),
       ("splash-icon.png", 1242, false), ("favicon.png", 48, false)] :=
  ⟨rfl, main_call_order ⟨true, .ok ⟨2000, 1000, "RGB"⟩, fun _ => none⟩ rfl⟩

/-- C6: in the maintain-aspect branch, the thumbnailed dimensions fit
within the target size, never exceed the source's dimensions (no
upscaling: a source already within bounds is left unchanged), and
preserve the source's width:height aspect ratio up to rounding (the
cross products `tw * h` and `w * th` differ by less than `max w h`,
i.e. by less than one pixel of either scaled dimension). -/
theorem thumbnail_fit_aspect_spec (s w h : Nat) (hs : 0 < s) (hw : 0 < w) (hh : 0 < h) :
    (thumbnail_fit s w h).1 ≤ s ∧ (thumbnail_fit s w h).2 ≤ s ∧
    (thumbnail_fit s w h).1 ≤ w ∧ (thumbnail_fit s w h).2 ≤ h ∧
    (w ≤ s → h ≤ s → thumbnail_fit s w h = (w, h)) ∧
    (thumbnail_fit s w h).1 * h < w * (thumbnail_fit s w h).2 + max w h ∧
    w * (thumbnail_fit s w h).2 < (thumbnail_fit s w h).1 * h + max w h := by
  obtain ⟨hb1, hb2, hb3, hb4⟩ := thumbnail_fit_bounds s w h hs hw hh
  refine ⟨hb1, hb2, hb3, hb4, ?_, ?_⟩
  · intro hws hhs
    unfold thumbnail_fit
    rw [if_pos ⟨hws, hhs⟩]
  · unfold thumbnail_fit
    split_ifs with h1 h2
    · simp only
      omega
    · have hc := roundAspectFit_close (s * w) h (Nat.mul_pos hs hw) hh
      have hcm : s * w = w * s := Nat.mul_comm s w
      simp only
      omega
    · have hc := roundAspectFree_close (s * h) w (Nat.mul_pos hs hh) hw
      have hcm : s * h = h * s := Nat.mul_comm s h
      have hcm2 : roundAspectFree (s * h) w * w = w * roundAspectFree (s * h) w :=
        Nat.mul_comm _ _
      simp only
      omega

/-- Witness for C6: a 2000 × 1000 source thumbnailed into a 1024-pixel
bounding box scales to 1024 × 512, which fits the box, does not upscale,
and preserves the 2:1 aspect ratio. -/
theorem thumbnail_fit_aspect_spec_witness :
    (0 < 1024 ∧ 0 < 2000 ∧ 0 < 1000) ∧
    ((thumbnail_fit 1024 2000 1000).1 ≤ 1024 ∧ (thumbnail_fit 1024 2000 1000).2 ≤ 1024 ∧
     (thumbnail_fit 1024 2000 1000).1 ≤ 2000 ∧ (thumbnail_fit 1024 2000 1000).2 ≤ 1000 ∧
     (2000 ≤ 1024 → 1000 ≤ 1024 → thumbnail_fit 1024 2000 1000 = (2000, 1000)) ∧
     (thumbnail_fit 1024 2000 1000).1 * 1000 <
       2000 * (thumbnail_fit 1024 2000 1000).2 + max 2000 1000 ∧
     2000 * (thumbnail_fit 1024 2000 1000).2 <
       (thumbnail_fit 1024 2000 1000).1 * 1000 + max 2000 1000) :=
  ⟨by decide,
   thumbnail_fit_aspect_spec 1024 2000 1000 (by decide) (by decide) (by decide)⟩

/-- C7: the paste position of the thumbnail on the square canvas is
computed as `paste_x = (size - scaledWidth) // 2` and
`paste_y = (size - scaledHeight) // 2` with integer floor division — the
`content` of the maintain-aspect branch records exactly these offsets —
and this equals the natural-number floor `(size - d) / 2`, so the
left/top margin never exceeds the right/bottom margin, which exceeds it
by at most one pixel (bias toward the top-left). -/
theorem paste_centering_spec :
    (∀ (env : Env) (img : Img) (p : String) (s : Nat),
      env.openResult = .ok img →
      (resize_image env p s true).content =
        some (paste_x s (thumbnail_fit s (convertRGBA img).width (convertRGBA img).height).1,
              paste_y s (thumbnail_fit s (convertRGBA img).width (convertRGBA img).height).2,
              (thumbnail_fit s (convertRGBA img).width (convertRGBA img).height).1,
              (thumbnail_fit s (convertRGBA img).width (convertRGBA img).height).2)) ∧
    (∀ s d : Nat, d ≤ s →
      paste_x s d = (((s - d) / 2 : Nat) : Int) ∧
      paste_y s d = (((s - d) / 2 : Nat) : Int) ∧
      2 * paste_x s d ≤ (s : Int) - d ∧
      (s : Int) - d ≤ 2 * paste_x s d + 1 ∧
      2 * paste_y s d ≤ (s : Int) - d ∧
      (s : Int) - d ≤ 2 * paste_y s d + 1) := by
  constructor
  · intro env img p s ho
    cases hs : env.saveError <;> simp [resize_image, ho, hs]
  · intro s d hd
    rw [paste_x_ediv, paste_y_ediv]
    omega

/-- Witness for C7: a successful run records the centering offsets, and
at `size = 1024`, `d = 512` the offset is 256 with margins 256 and 256. -/
theorem paste_centering_spec_witness :
    (Env.mk (.ok ⟨2000, 1000, "RGB"⟩) none).openResult = .ok ⟨2000, 1000, "RGB"⟩ ∧
    (resize_image ⟨.ok ⟨2000, 1000, "RGB"⟩, none⟩ ("out.png") 1024 true).content =
      some (paste_x 1024
              (thumbnail_fit 1024 (convertRGBA ⟨2000, 1000, "RGB"⟩).width
                (convertRGBA ⟨2000, 1000, "RGB"⟩).height).1,
            paste_y 1024
              (thumbnail_fit 1024 (convertRGBA ⟨2000, 1000, "RGB"⟩).width
                (convertRGBA ⟨2000, 1000, "RGB"⟩).height).2,
            (thumbnail_fit 1024 (convertRGBA ⟨2000, 1000, "RGB"⟩).width
                (convertRGBA ⟨2000, 1000, "RGB"⟩).height).1,
            (thumbnail_fit 1024 (convertRGBA ⟨2000, 1000, "RGB"⟩).width
                (convertRGBA ⟨2000, 1000, "RGB"⟩).height).2) ∧
    (512 ≤ 1024 ∧ paste_x 1024 512 = (((1024 - 512) / 2 : Nat) : Int)) :=
  ⟨rfl,
   paste_centering_spec.1 ⟨.ok ⟨2000, 1000, "RGB"⟩, none⟩ ⟨2000, 1000, "RGB"⟩
     ("out.png") 1024 rfl,
   by decide, (paste_centering_spec.2 1024 512 (by decide)).1⟩

/-- C9: the thumbnail of a nonempty source fits inside the square canvas:
both scaled dimensions are at most the target size, so both paste offsets
are nonnegative and offset plus scaled extent stays within the canvas —
the paste never clips. -/
theorem paste_in_bounds (s w h : Nat) (hs : 0 < s) (hw : 0 < w) (hh : 0 < h) :
    0 ≤ paste_x s (thumbnail_fit s w h).1 ∧
    paste_x s (thumbnail_fit s w h).1 + (thumbnail_fit s w h).1 ≤ (s : Int) ∧
    0 ≤ paste_y s (thumbnail_fit s w h).2 ∧
    paste_y s (thumbnail_fit s w h).2 + (thumbnail_fit s w h).2 ≤ (s : Int) := by
  obtain ⟨hb1, hb2, _, _⟩ := thumbnail_fit_bounds s w h hs hw hh
  rw [paste_x_ediv, paste_y_ediv]
  omega

/-- Witness for C9: the 2000 × 1000 source in the 1024 canvas pastes at a
nonnegative offset and stays inside the canvas. -/
theorem paste_in_bounds_witness :
    (0 < 1024 ∧ 0 < 2000 ∧ 0 < 1000) ∧
    (0 ≤ paste_x 1024 (thumbnail_fit 1024 2000 1000).1 ∧
     paste_x 1024 (thumbnail_fit 1024 2000 1000).1 +
       (thumbnail_fit 1024 2000 1000).1 ≤ (1024 : Int) ∧
     0 ≤ paste_y 1024 (thumbnail_fit 1024 2000 1000).2 ∧
     paste_y 1024 (thumbnail_fit 1024 2000 1000).2 +
       (thumbnail_fit 1024 2000 1000).2 ≤ (1024 : Int)) :=
  ⟨by decide, paste_in_bounds 1024 2000 1000 (by decide) (by decide) (by decide)⟩

/-- C3: with the source present, `main` exits 0 iff all four entries
succeed; all four entries are always attempted (the loop never aborts on
a per-file failure); and when exactly one entry fails, exit code is 1 and
exactly 3 of the 4 output files are written. -/
theorem main_exit_policy (w : World) (h : w.sourceExists = true) :
    ((main w).exitCode = 0 ↔ ∀ e ∈ ICON_SIZES, retFor w e = true) ∧
    (main w).calls.length = 4 ∧
    (ICON_SIZES.countP (fun e => !(retFor w e)) = 1 →
      (main w).exitCode = 1 ∧ (main w).written.length = 3) := by
  rw [main_run w h]
  refine ⟨?_, ?_, ?_⟩
  · constructor
    · intro h0
      split_ifs at h0 with hc
      intro e he
      exact List.countP_eq_length.mp hc e he
    · intro hall
      rw [if_pos (List.countP_eq_length.mpr hall)]
  · rfl
  · intro hone
    cases hb1 : retFor w ("icon.png", 1024) <;>
    cases hb2 : retFor w ("adaptive-icon.png", 1024) <;>
    cases hb3 : retFor w ("splash-icon.png", 1242) <;>
    cases hb4 : retFor w ("favicon.png", 48) <;>
      simp [ICON_SIZES, List.countP_cons, List.filter_cons, hb1, hb2, hb3, hb4]
        at hone ⊢

/-- Witness for C3: a run in which only icon.png fails (a write error)
attempts all four entries, writes 3 of 4 files and exits 1. -/
theorem main_exit_policy_witness :
    (World.mk true (.ok ⟨2000, 1000, "RGB"⟩)
        (fun f => if f = "icon.png" then some ("perm") else none)).sourceExists = true ∧
    ICON_SIZES.countP
      (fun e => !(retFor ⟨true, .ok ⟨2000, 1000, "RGB"⟩,
        fun f => if f = "icon.png" then some ("perm") else none⟩ e)) = 1 ∧
    ((main ⟨true, .ok ⟨2000, 1000, "RGB"⟩,
        fun f => if f = "icon.png" then some ("perm") else none⟩).exitCode = 1 ∧
     (main ⟨true, .ok ⟨2000, 1000, "RGB"⟩,
        fun f => if f = "icon.png" then some ("perm") else none⟩).written.length = 3) := by
  have hcount : ICON_SIZES.countP
      (fun e => !(retFor ⟨true, .ok ⟨2000, 1000, "RGB"⟩,
        fun f => if f = "icon.png" then some ("perm") else none⟩ e)) = 1 := by decide
  exact ⟨rfl, hcount,
    (main_exit_policy ⟨true, .ok ⟨2000, 1000, "RGB"⟩,
      fun f => if f = "icon.png" then some ("perm") else none⟩ rfl).2.2 hcount⟩

/-- C8: a run of the generator is deterministic — its observable result
is a function of the source-decode outcome and the per-output save
outcomes alone — and no run ever writes to the source image file, so a
second run on the unchanged source sees the same inputs and produces
identical outputs. -/
theorem main_idempotent :
    (∀ w₁ w₂ : World, w₁.sourceExists = w₂.sourceExists →
      w₁.openResult = w₂.openResult →
      (∀ f, w₁.saveError f = w₂.saveError f) → main w₁ = main w₂) ∧
    (∀ w : World, "logo-source.jpeg" ∉ (main w).written) := by
  constructor
  · rintro ⟨s1, o1, f1⟩ ⟨s2, o2, f2⟩ hs ho hf
    have hs' : s1 = s2 := hs
    have ho' : o1 = o2 := ho
    have hf' : f1 = f2 := funext hf
    subst hs'
    subst ho'
    subst hf'
    rfl
  · intro w hmem
    exact absurd (mem_written w _ hmem) (by decide)

/-- Witness for C8: two worlds with extensionally equal save behavior
produce equal results, and a concrete run does not write the source. -/
theorem main_idempotent_witness :
    main ⟨true, .ok ⟨2000, 1000, "RGB"⟩, fun _ => none⟩ =
      main ⟨true, .ok ⟨2000, 1000, "RGB"⟩, fun f => if f = "x" then none else none⟩ ∧
    "logo-source.jpeg" ∉ (main ⟨true, .ok ⟨2000, 1000, "RGB"⟩, fun _ => none⟩).written := by
  refine ⟨main_idempotent.1 _ _ rfl rfl ?_, main_idempotent.2 _⟩
  intro f
  simp

/-- C10: the source filename `logo-source.jpeg` is none of the four
output filenames (all live in the same assets directory, so distinct
filenames are distinct paths), and every file a run writes is one of the
table's filenames — no iteration ever writes to the source image. -/
theorem source_never_written :
    "logo-source.jpeg" ∉ ICON_SIZES.map Prod.fst ∧
    (∀ (w : World) (p : String), p ∈ (main w).written → p ≠ "logo-source.jpeg") := by
  constructor
  · decide
  · intro w p hp hpe
    subst hpe
    exact absurd (mem_written w _ hp) (by decide)

/-- Witness for C10: a concrete successful run writes icon.png, which is
not the source filename. -/
theorem source_never_written_witness :
    "icon.png" ∈ (main ⟨true, .ok ⟨2000, 1000, "RGB"⟩, fun _ => none⟩).written ∧
    "icon.png" ≠ "logo-source.jpeg" := by
  have hmem : "icon.png" ∈
      (main ⟨true, .ok ⟨2000, 1000, "RGB"⟩, fun _ => none⟩).written := by decide
  exact ⟨hmem, source_never_written.2 _ _ hmem⟩

end GenerateIcons
